import Mathlib

/-!
Shallow embedding of the TotesMessenger notifier (`totes.py`, `settings.py`,
`db.py`) in Lean 4, together with theorems settling the frozen claims about
its specification.

Conventions of the embedding:
* the sqlite store is a pure value (`Store`, `PrefStore`): a `cur.execute`
  SELECT becomes a pure query over the row lists, an INSERT/UPDATE followed by
  `db.commit()` becomes a function from store to store;
* the external reddit client is an environment (`RedditEnv`) mapping fully
  qualified identifiers to resources; a failed fetch models praw raising, and
  surfaces as `TotesErr` through `Except`;
* Python instance mutation becomes explicit state passing: each method takes
  the entity value and returns the updated one.
-/

namespace Totes

/-! ### Settings (`settings.py`) -/

/-- `POST_TIME = 2 * 60`: how long to wait until we should post (seconds). -/
def POST_TIME : Int := 2 * 60

/-- `LINKS_BEFORE_TITLE_CUTOFF = 40`. -/
def LINKS_BEFORE_TITLE_CUTOFF : Nat := 40

/-- `TITLE_LIMIT = 140 - 3`: title character limit less the ellipsis. -/
def TITLE_LIMIT : Nat := 140 - 3

/-! ### Errors (`RecoverableException` hierarchy plus client errors) -/

/-- The recoverable error taxonomy of `totes.py`: `NotAComment`,
`SubmissionNotFound(id)`, and the praw API/client exception family (modelled
as a single constructor, since the orchestrator treats the whole
`RECOVERABLE_EXC` tuple uniformly). -/
inductive TotesErr where
  | notAComment : TotesErr
  | submissionNotFound : String → TotesErr
  | apiError : TotesErr
deriving DecidableEq, Repr

instance {e a : Type} [DecidableEq e] [DecidableEq a] : DecidableEq (Except e a) := fun x y =>
  match x, y with
  | .ok u, .ok v =>
    if h : u = v then isTrue (by rw [h]) else isFalse (fun hh => by cases hh; exact h rfl)
  | .error u, .error v =>
    if h : u = v then isTrue (by rw [h]) else isFalse (fun hh => by cases hh; exact h rfl)
  | .ok _, .error _ => isFalse (fun hh => by cases hh)
  | .error _, .ok _ => isFalse (fun hh => by cases hh)

/-! ### Path parsing (`PATH_REGEX` and `Source._parse_path`) -/

/-- Character class `[a-z0-9]` of `PATH_REGEX`. -/
def isIdChar (c : Char) : Bool :=
  (decide ('a' ≤ c) && decide (c ≤ 'z')) || (decide ('0' ≤ c) && decide (c ≤ '9'))

/-- Match a literal fragment of the regex at the head of the input, returning
the remaining input on success. -/
def dropLit : List Char → List Char → Option (List Char)
  | [], s => some s
  | _ :: _, [] => none
  | p :: ps, c :: cs => if p = c then dropLit ps cs else none

/-- Greedy match of `([a-z0-9]{6,8})` with nothing anchored after it: the
match takes `min 8 runLength` characters of the maximal `[a-z0-9]` run and
succeeds exactly when that run has at least six characters (the regex engine
never backtracks into this group because the rest of `PATH_REGEX` is an
optional group that can match the empty string). Returns the matched group
and the remaining input. -/
def matchId (s : List Char) : Option (List Char × List Char) :=
  let run := s.takeWhile isIdChar
  if run.length < 6 then none
  else some (run.take 8, s.drop (run.take 8).length)

/-- Greedy match of the optional group `(/[^/]+/([a-z0-9]{6,8}))?` of
`PATH_REGEX`, returning the inner comment-id group when the group matches.
`[^/]+` cannot cross a slash, so it matches exactly the maximal nonempty
slash-free segment. -/
def matchCommentPart : List Char → Option (List Char)
  | [] => none
  | c :: rest =>
    if c = '/' then
      let seg := rest.takeWhile (fun c => c != '/')
      if seg.length = 0 then none
      else
        match rest.drop seg.length with
        | [] => none
        | c2 :: rest2 =>
          if c2 = '/' then
            match matchId rest2 with
            | some (cid, _) => some cid
            | none => none
          else none
    else none

/-- The literal `/r/` of `PATH_REGEX`. -/
def rLit : List Char := ['/', 'r', '/']

/-- The literal `/comments/` of `PATH_REGEX`. -/
def commentsLit : List Char := ['/', 'c', 'o', 'm', 'm', 'e', 'n', 't', 's', '/']

/-- The tail of `commentsLit` after its leading slash. -/
def commentsTail : List Char := ['c', 'o', 'm', 'm', 'e', 'n', 't', 's', '/']

/-- Result of a successful `PATH_REGEX.match`: the three capture groups used
by `_parse_path` (subreddit, post id, optional comment id). -/
structure PathMatch where
  subreddit : List Char
  post : List Char
  comment : Option (List Char)
deriving DecidableEq, Repr

/-- `PATH_REGEX.match(path)`:
`^/r/([^/]+)/comments/([a-z0-9]{6,8})(/[^/]+/([a-z0-9]{6,8}))?`.
The match is anchored at the start only; trailing input is ignored. -/
def pathMatch (s : List Char) : Option PathMatch :=
  match dropLit rLit s with
  | none => none
  | some s1 =>
    let sub := s1.takeWhile (fun c => c != '/')
    if sub.length = 0 then none
    else
      match dropLit commentsLit (s1.drop sub.length) with
      | none => none
      | some s2 =>
        match matchId s2 with
        | none => none
        | some (post, s3) => some ⟨sub, post, matchCommentPart s3⟩

/-- `Source._parse_path`: on a regex match build the fullname
(`t1_` + comment id if the comment group matched, else `t3_` + post id) and
return it with the subreddit group; otherwise raise `NotAComment`. -/
def parsePath (path : List Char) : Except TotesErr (List Char × List Char) :=
  match pathMatch path with
  | none => .error .notAComment
  | some m =>
    match m.comment with
    | some cid => .ok (['t', '1', '_'] ++ cid, m.subreddit)
    | none => .ok (['t', '3', '_'] ++ m.post, m.subreddit)

/-! ### Store rows and the sqlite store -/

/-- A row of the `sources` table as written by `totes.py`
(`id, reply, subreddit, author, title, skip` plus the creation timestamp
column `t DEFAULT CURRENT_TIMESTAMP`). -/
structure SourceRow where
  id : String
  reply : Option String
  subreddit : String
  author : Option String
  title : Option String
  skip : Bool
  t : Nat
deriving DecidableEq, Repr

/-- A row of the `links` table as written by `totes.py`. -/
structure LinkRow where
  id : String
  source : String
  permalink : String
  subreddit : String
  skip : Bool
  author : String
  title : String
  t : Nat
deriving DecidableEq, Repr

/-- The entity store: the `sources` and `links` tables. -/
structure Store where
  sources : List SourceRow
  links : List LinkRow
deriving DecidableEq, Repr

/-- A row of the `users` preference table as queried by `check_skip`
(`name`, `skip_source`, `skip_link`). -/
structure UserPref where
  name : String
  skipSource : Bool
  skipLink : Bool
deriving DecidableEq, Repr

/-- A row of the `subreddits` preference table as queried by `check_skip`. -/
structure SubPref where
  name : String
  skipSource : Bool
  skipLink : Bool
deriving DecidableEq, Repr

/-- The preference store: the `users` and `subreddits` tables. -/
structure PrefStore where
  users : List UserPref
  subreddits : List SubPref
deriving DecidableEq, Repr

/-- `source_exists(id)`. -/
def source_exists (st : Store) (id : String) : Bool :=
  st.sources.any (fun r => r.id == id)

/-- `link_exists(id)`. -/
def link_exists (st : Store) (id : String) : Bool :=
  st.links.any (fun r => r.id == id)

/-- `SELECT ... FROM sources WHERE id=? LIMIT 1`. -/
def findSource (st : Store) (id : String) : Option SourceRow :=
  st.sources.find? (fun r => r.id == id)

/-- `SELECT ... FROM links WHERE id=? LIMIT 1`. -/
def findLink (st : Store) (id : String) : Option LinkRow :=
  st.links.find? (fun r => r.id == id)

/-- `SELECT * FROM users WHERE name = ? AND skip_source = TRUE LIMIT 1`
returned a row. A SQL `name = NULL` comparison matches no row, hence the
`Option` on the queried name. -/
def userSkipSource (ps : PrefStore) (name : Option String) : Bool :=
  (ps.users.find? (fun u => (some u.name == name) && u.skipSource)).isSome

/-- `SELECT * FROM subreddits WHERE name = ? AND skip_source = TRUE LIMIT 1`
returned a row. -/
def subSkipSource (ps : PrefStore) (name : String) : Bool :=
  (ps.subreddits.find? (fun u => (u.name == name) && u.skipSource)).isSome

/-- `SELECT * FROM users WHERE name = ? AND skip_link = TRUE LIMIT 1`
returned a row. -/
def userSkipLink (ps : PrefStore) (name : String) : Bool :=
  (ps.users.find? (fun u => (u.name == name) && u.skipLink)).isSome

/-- `SELECT * FROM subreddits WHERE name = ? AND skip_link = TRUE LIMIT 1`
returned a row. -/
def subSkipLink (ps : PrefStore) (name : String) : Bool :=
  (ps.subreddits.find? (fun u => (u.name == name) && u.skipLink)).isSome

/-! ### The external reddit client -/

/-- An external submission or comment resource as read through praw: author
name (absent when deleted), `title` attribute (absent on comments, which is
what `hasattr(submission, 'title')` tests), and the `archived` flag. -/
structure Subm where
  author : Option String
  title : Option String
  archived : Bool
deriving DecidableEq, Repr

/-- The reddit client environment: fetching a resource by fullname yields the
resource, or nothing when the id no longer resolves (praw raising on
attribute access, which `Source.submission` converts to
`SubmissionNotFound`). -/
structure RedditEnv where
  fetch : String → Option Subm

/-! ### Source (`class Source`) -/

/-- In-memory `Source` state. `author` and `title` start as `None` in
`__init__` and are filled by `load`; `reply` holds the notification reply
fullname once posted. -/
structure Src where
  id : String
  subreddit : String
  author : Option String
  title : Option String
  reply : Option String
  skip : Bool
  isNew : Bool
deriving DecidableEq, Repr

/-- Python truthiness of an optional string (`None` and `""` are falsy). -/
def optTruthy : Option String → Bool
  | none => false
  | some s => !(s == "")

/-- Python's `str.lower()`, modelled codepoint-wise (the names this program
lowercases are ASCII). -/
def lowerStr (s : String) : String := String.mk (s.data.map Char.toLower)

/-- `Source.__init__`: lowercase the URL, take its path, parse it. The
`urlparse(url).path` extraction is modelled upstream — the argument is the
URL's path component — and `.lower()` is applied here as in the source. -/
def Src.mk' (path : String) : Except TotesErr Src :=
  match parsePath (lowerStr path).toList with
  | .error e => .error e
  | .ok (id, sub) =>
    .ok { id := String.mk id, subreddit := String.mk sub, author := none,
          title := none, reply := none, skip := false, isNew := true }

/-- `Source.submission`: fetch the resource by id; praw raising on the
`.name` probe becomes `SubmissionNotFound(id)`. -/
def Src.getSubmission (s : Src) (env : RedditEnv) : Except TotesErr Subm :=
  match env.fetch s.id with
  | some sub => .ok sub
  | none => .error (.submissionNotFound s.id)

/-- `Source.load()`: hydrate from the store row when one exists (no external
fetch) and mark not-new; otherwise resolve author and title from the external
submission. The returned `Bool` records whether an external fetch was
performed. -/
def Src.load (s : Src) (st : Store) (env : RedditEnv) :
    Except TotesErr (Src × Bool) :=
  match findSource st s.id with
  | some row =>
    .ok ({ s with
           reply := row.reply,
           subreddit := row.subreddit,
           author := row.author,
           title := row.title,
           skip := row.skip,
           isNew := false }, false)
  | none =>
    match s.getSubmission env with
    | .error e => .error e
    | .ok sub =>
      let author :=
        if !optTruthy s.author && sub.author.isSome then
          some (lowerStr (sub.author.getD ""))
        else some "[deleted]"
      let title :=
        match sub.title with
        | some tt => some tt
        | none => some "[comment]"
      .ok ({ s with author := author, title := title }, true)

/-- `Source.check_skip()`: latch on the instance flag, then the user
preference query, then the subreddit preference query, then the archived
flag of the external submission (which may raise). The returned `Nat` counts
the preference-store queries issued. -/
def Src.check_skip (s : Src) (ps : PrefStore) (env : RedditEnv) :
    Except TotesErr (Bool × Src × Nat) :=
  if s.skip then .ok (true, s, 0)
  else if userSkipSource ps s.author then .ok (true, { s with skip := true }, 1)
  else if subSkipSource ps s.subreddit then .ok (true, { s with skip := true }, 2)
  else
    match s.getSubmission env with
    | .error e => .error e
    | .ok sub =>
      if sub.archived then .ok (true, { s with skip := true }, 2)
      else .ok (false, s, 2)

/-- The `UPDATE sources SET reply=?, subreddit=?, author=?, title=?, skip=?
WHERE id=?` row transformation: every column but the creation timestamp. -/
def updSourceRow (s : Src) (r : SourceRow) : SourceRow :=
  { r with reply := s.reply, subreddit := s.subreddit, author := s.author,
           title := s.title, skip := s.skip }

/-- The `INSERT INTO sources` row; the store assigns the creation
timestamp. -/
def SourceRow.ofSrc (s : Src) (t : Nat) : SourceRow :=
  { id := s.id, reply := s.reply, subreddit := s.subreddit, author := s.author,
    title := s.title, skip := s.skip, t := t }

/-- `Source.save()`: UPDATE when a row with this id exists, INSERT otherwise,
then commit. -/
def Src.save (s : Src) (st : Store) (now : Nat) : Store :=
  if source_exists st s.id then
    { st with sources := st.sources.map (fun r => if r.id == s.id then updSourceRow s r else r) }
  else
    { st with sources := st.sources ++ [SourceRow.ofSrc s now] }

/-! ### Link (`class Link`) -/

/-- In-memory `Link` state. -/
structure Lnk where
  id : String
  subreddit : String
  skip : Bool
  author : String
  title : String
  permalink : String
  source : String
  isNew : Bool
deriving DecidableEq, Repr

/-- A linking submission as fetched from the `reddit.com` domain feed.
`attrsOk` models whether praw's lazy attribute loads on this object succeed;
the orchestrator's `try` around `Link(submission, source.id); link.load()`
exists for exactly that failure mode. -/
structure LinkSubm where
  name : String
  subredditDisplayName : String
  author : Option String
  title : String
  permalink : String
  url : String
  createdUtc : Int
  attrsOk : Bool
deriving DecidableEq, Repr

/-- `Link.__init__`: copy identifier, lowercased subreddit and author, title,
permalink and the resolved source id; a deleted author forces `skip`.
Fails with a client error when praw's lazy attribute loads fail. -/
def Lnk.mk' (subm : LinkSubm) (sourceId : String) : Except TotesErr Lnk :=
  if !subm.attrsOk then .error .apiError
  else
    .ok { id := subm.name,
          subreddit := lowerStr subm.subredditDisplayName,
          skip := !subm.author.isSome,
          author := (subm.author.map lowerStr).getD "[deleted]",
          title := subm.title,
          permalink := subm.permalink,
          source := sourceId,
          isNew := true }

/-- `Link.load()`: hydrate from the store row when one exists and mark
not-new; otherwise leave the freshly constructed fields. -/
def Lnk.load (l : Lnk) (st : Store) : Lnk :=
  match findLink st l.id with
  | some row =>
    { l with
      source := row.source,
      permalink := row.permalink,
      subreddit := row.subreddit,
      skip := row.skip,
      author := row.author,
      title := row.title,
      isNew := false }
  | none => l

/-- `Link.check_skip()`: latch on the instance flag, then the skip-link user
preference, then the skip-link subreddit preference (on the lowercased
subreddit name). The returned `Nat` counts the preference-store queries. -/
def Lnk.check_skip (l : Lnk) (ps : PrefStore) : Bool × Lnk × Nat :=
  if l.skip then (true, l, 0)
  else if userSkipLink ps l.author then (true, { l with skip := true }, 1)
  else if subSkipLink ps (lowerStr l.subreddit) then (true, { l with skip := true }, 2)
  else (false, l, 2)

/-- The `UPDATE links SET source=?, permalink=?, subreddit=?, skip=?,
author=?, title=? WHERE id=?` row transformation. -/
def updLinkRow (l : Lnk) (r : LinkRow) : LinkRow :=
  { r with source := l.source, permalink := l.permalink,
           subreddit := l.subreddit, skip := l.skip, author := l.author,
           title := l.title }

/-- The `INSERT INTO links` row; the store assigns the creation timestamp. -/
def LinkRow.ofLnk (l : Lnk) (t : Nat) : LinkRow :=
  { id := l.id, source := l.source, permalink := l.permalink,
    subreddit := l.subreddit, skip := l.skip, author := l.author,
    title := l.title, t := t }

/-- `Link.save()`: UPDATE when a row with this id exists, INSERT otherwise,
then commit. -/
def Lnk.save (l : Lnk) (st : Store) (now : Nat) : Store :=
  if link_exists st l.id then
    { st with links := st.links.map (fun r => if r.id == l.id then updLinkRow l r else r) }
  else
    { st with links := st.links ++ [LinkRow.ofLnk l now] }

/-! ### Notification (`class Notification`) -/

/-- In-memory `Notification` state: the source's id, a copy of its reply
fullname, the gathered `(subreddit, title, permalink)` rows, and the source
object itself. -/
structure Notif where
  sourceId : String
  reply : Option String
  links : List (String × String × String)
  src : Src
deriving DecidableEq, Repr

/-- `Notification.__init__`. -/
def Notif.ofSrc (s : Src) : Notif :=
  { sourceId := s.id, reply := s.reply, links := [], src := s }

/-- The `ORDER BY subreddit ASC, title ASC` ordering on the selected
`(subreddit, title, permalink)` rows: sqlite's BINARY collation on UTF-8
bytes coincides with the codepoint-lexicographic order on strings. -/
def linkKeyLE (a b : String × String × String) : Prop :=
  a.1.data < b.1.data ∨ (a.1.data = b.1.data ∧ a.2.1.data ≤ b.2.1.data)

instance : DecidableRel linkKeyLE := fun a b => by
  unfold linkKeyLE
  infer_instance

instance : IsTotal (String × String × String) linkKeyLE := by
  constructor
  intro a b
  rcases lt_trichotomy a.1.data b.1.data with h | h | h
  · exact Or.inl (Or.inl h)
  · rcases le_total a.2.1.data b.2.1.data with h2 | h2
    · exact Or.inl (Or.inr ⟨h, h2⟩)
    · exact Or.inr (Or.inr ⟨h.symm, h2⟩)
  · exact Or.inr (Or.inl h)

instance : IsTrans (String × String × String) linkKeyLE := by
  constructor
  intro a b c hab hbc
  rcases hab with hab | ⟨hab, hab2⟩
  · rcases hbc with hbc | ⟨hbc, _⟩
    · exact Or.inl (hab.trans hbc)
    · exact Or.inl (hbc ▸ hab)
  · rcases hbc with hbc | ⟨hbc, hbc2⟩
    · exact Or.inl (hab ▸ hbc)
    · exact Or.inr ⟨hab.trans hbc, hab2.trans hbc2⟩

/-- The query of `should_notify`:
`SELECT subreddit, title, permalink FROM links WHERE source=? AND skip=?
ORDER BY subreddit ASC, title ASC` with parameters `(self.id, False)`. -/
def queryLinks (st : Store) (sid : String) : List (String × String × String) :=
  List.insertionSort linkKeyLE
    ((st.links.filter (fun r => (r.source == sid) && (r.skip == false))).map
      (fun r => (r.subreddit, r.title, r.permalink)))

/-- `Notification.should_notify()`: append every queried row to `self.links`
and return `any(self.links)` (each row is a nonempty tuple, hence truthy, so
`any` tests nonemptiness). -/
def Notif.should_notify (n : Notif) (st : Store) : Bool × Notif :=
  let n2 := { n with links := n.links ++ queryLinks st n.sourceId }
  (!n2.links.isEmpty, n2)

/-- Modelled from the spec: the helper `np` applied to each permalink by
`_render_comment` is absent from the provided sources; the spec describes the
bullet as showing "a clickable, no-vote-tracking-tagged link to the linking
thread", i.e. the permalink tagged for the no-participation domain. -/
def np (permalink : String) : String :=
  "https://np.reddit.com" ++ permalink

/-- The fixed preamble of the rendered comment. -/
def preambleText : String :=
  "This thread has been linked to from another place on reddit."

/-- The fixed footer of the rendered comment (the triple-quoted literal of
`_render_comment`, apostrophe written as an escape). -/
def footerText : String :=
  "\n[](#footer)*^(If you follow any of the above links, respect the rules of reddit and don\x27t vote.)\n            ^\\([Info](/r/TotesMessenger/wiki/)\n            ^/\n            ^[Contact](/message/compose/?to=\\/r\\/TotesMessenger))* [](#bot)\n        "

/-- One rendered bullet of the active `_render_comment` loop:
`"- [/r/{}] [{}]({})".format(subreddit, title, np(permalink))`. -/
def renderBullet (r : String × String × String) : String :=
  "- [/r/" ++ r.1 ++ "] [" ++ r.2.1 ++ "](" ++ np r.2.2 ++ ")"

/-- `Notification._render_comment()` (the active code path): preamble, one
bullet per gathered link, footer, joined by blank lines. The title-truncation
loop is commented out in the source and does not run. -/
def renderComment (links : List (String × String × String)) : String :=
  String.intercalate "\n\n" ([preambleText] ++ links.map renderBullet ++ [footerText])

/-- The rendering described by the specification sentence under review: when
the link count exceeds `LINKS_BEFORE_TITLE_CUTOFF`, titles longer than
`TITLE_LIMIT` are truncated to `TITLE_LIMIT` characters and suffixed with an
ellipsis; otherwise the bullet is the one `renderComment` produces. Stated
from the spec's words for comparison against the source's renderer. -/
def renderCommentSpec (links : List (String × String × String)) : String :=
  let cutoff := decide (links.length > LINKS_BEFORE_TITLE_CUTOFF)
  String.intercalate "\n\n"
    ([preambleText] ++
     links.map (fun r =>
       let title :=
         if cutoff && decide (r.2.1.length > TITLE_LIMIT) then
           String.mk (r.2.1.data.take TITLE_LIMIT) ++ "..."
         else r.2.1
       renderBullet (r.1, title, r.2.2)) ++
     [footerText])

/-! ### Reply posting -/

/-- The state of notification replies on the external site: the reply
resources in creation order (fullname and current body) and a counter from
which the site mints fresh reply fullnames. -/
structure RState where
  replyBodies : List (String × String)
  counter : Nat
deriving DecidableEq, Repr

/-- The fullname the external site assigns to the next newly created
reply (fresh by construction). -/
def genReplyId (counter : Nat) : String :=
  "t1_gen" ++ toString counter

/-- `Notification.post_reply()`: render the body; in TEST mode just log and
return; if a reply fullname is known, edit that reply in place; otherwise
post a new reply under the source's submission (the fetch may fail
recoverably), record its fullname on the notification and the source, and
save the source. -/
def Notif.post_reply (n : Notif) (test : Bool) (st : Store) (rs : RState)
    (env : RedditEnv) (now : Nat) : Except TotesErr (Notif × Store × RState) :=
  let body := renderComment n.links
  if test then .ok (n, st, rs)
  else
    match n.reply with
    | some rid =>
      .ok (n, st,
        { rs with replyBodies := rs.replyBodies.map (fun p => if p.1 == rid then (p.1, body) else p) })
    | none =>
      match n.src.getSubmission env with
      | .error e => .error e
      | .ok _ =>
        let rid := genReplyId rs.counter
        let src2 := { n.src with reply := some rid }
        .ok ({ n with reply := some rid, src := src2 },
             Src.save src2 st now,
             { rs with
               replyBodies := rs.replyBodies ++ [(rid, body)],
               counter := rs.counter + 1 })

/-! ### The polling orchestrator (`Totes.run`) -/

/-- The world outside the entity store: preference tables and the reddit
client. -/
structure World where
  prefs : PrefStore
  env : RedditEnv

/-- One candidate submission of a cycle, together with the
`datetime.now(timezone.utc).timestamp()` reading taken when it is
examined. -/
structure Candidate where
  subm : LinkSubm
  now : Int
deriving DecidableEq, Repr

/-- The per-cycle mutable state of `Totes.run`: the entity store and the
`sources` set (a list deduplicated by source id, since `Source.__eq__` and
`__hash__` compare ids). -/
structure CycleState where
  store : Store
  queued : List Src
deriving DecidableEq, Repr

/-- The protected source-resolution step of `Totes.run`:
`source = Source(self.reddit, submission.url); source.load()`. -/
def sourceResolve (w : World) (st : Store) (url : String) : Except TotesErr Src :=
  match Src.mk' url with
  | .error e => .error e
  | .ok s =>
    match Src.load s st w.env with
    | .error e => .error e
    | .ok (s2, _) => .ok s2

/-- The protected link-resolution step of `Totes.run`:
`link = Link(submission, source.id); link.load()`. -/
def linkResolve (st : Store) (subm : LinkSubm) (sourceId : String) :
    Except TotesErr Lnk :=
  match Lnk.mk' subm sourceId with
  | .error e => .error e
  | .ok l => .ok (Lnk.load l st)

/-- The batching decision at the end of the per-submission body:
`skip_any = source.skip or link.skip`, forced true when the source subreddit
differs from `relationship_advice` and the link subreddit differs from
`ra_automod`; the source is queued when `any_new and not skip_any`. -/
def queueDecision (source : Src) (link : Lnk) : Bool :=
  let skipAny := source.skip || link.skip
  let skipAny2 :=
    if (source.subreddit != "relationship_advice") && (link.subreddit != "ra_automod") then true
    else skipAny
  (source.isNew || link.isNew) && !skipAny2

/-- Add a source to the `sources` set (`Source.__eq__` compares ids, so an
already-queued id is not added again). -/
def queueAdd (q : List Src) (s : Src) : List Src :=
  if q.any (fun x => x.id == s.id) then q else q ++ [s]

/-- The per-submission body of `Totes.run`. The result's second component is
`some e` exactly when the unprotected `source.check_skip()` call raised — the
one recoverable-exception site of the body that sits outside a `try` and
therefore aborts the cycle (to be caught by the process main loop). All
write-and-commit effects already performed stay in the returned store. -/
def processSubmission (w : World) (st : CycleState) (c : Candidate) :
    CycleState × Option TotesErr :=
  if c.now - c.subm.createdUtc < POST_TIME then (st, none)
  else
    match sourceResolve w st.store c.subm.url with
    | .error _ => (st, none)
    | .ok source =>
      match Src.check_skip source w.prefs w.env with
      | .error e => (st, some e)
      | .ok (_, source2, _) =>
        let store2 := Src.save source2 st.store c.now.toNat
        match linkResolve store2 c.subm source2.id with
        | .error _ => ({ st with store := store2 }, none)
        | .ok link0 =>
          let (_, link2, _) := Lnk.check_skip link0 w.prefs
          let store3 := Lnk.save link2 store2 c.now.toNat
          let queued2 := if queueDecision source2 link2 then queueAdd st.queued source2 else st.queued
          (⟨store3, queued2⟩, none)

/-- The first `for submission in submissions` loop of `Totes.run`; an error
escaping `processSubmission` aborts the remaining iterations (the exception
propagates out of `run`), carrying the committed state reached so far. -/
def processAll (w : World) (st : CycleState) :
    List Candidate → CycleState × Option TotesErr
  | [] => (st, none)
  | c :: rest =>
    match processSubmission w st c with
    | (st2, none) => processAll w st2 rest
    | (st2, some e) => (st2, some e)

/-- One iteration of the dispatch loop `for source in sources`: build the
notification, run `should_notify`, and when it says so attempt `post_reply`
inside the `try` — a recoverable failure is logged, rolled back and the loop
continues with the accumulator unchanged. -/
def dispatchOne (w : World) (test : Bool) (now : Nat)
    (acc : Store × RState) (s : Src) : Store × RState :=
  let sn := Notif.should_notify (Notif.ofSrc s) acc.1
  if sn.1 then
    match Notif.post_reply sn.2 test acc.1 acc.2 w.env now with
    | .ok (_, st2, rs2) => (st2, rs2)
    | .error _ => acc
  else acc

/-- The dispatch loop of `Totes.run`. -/
def dispatchAll (w : World) (test : Bool) (now : Nat) (queued : List Src)
    (st : Store) (rs : RState) : Store × RState :=
  queued.foldl (dispatchOne w test now) (st, rs)

/-- One full `Totes.run` cycle: process candidates; when the loop aborted on
an unprotected exception the dispatch phase is skipped and the error is
reported to the caller (the process main loop, which logs, rolls back and
sleeps). -/
def runCycle (w : World) (test : Bool) (now : Nat) (cands : List Candidate)
    (st : Store) (rs : RState) : Store × RState × Option TotesErr :=
  match processAll w ⟨st, []⟩ cands with
  | (cs, some e) => (cs.store, rs, some e)
  | (cs, none) =>
    let (st2, rs2) := dispatchAll w test now cs.queued cs.store rs
    (st2, rs2, none)

/-! ### Concrete sample values used by witnesses -/

/-- A world whose reddit client resolves nothing. -/
def wNoFetch : World := ⟨⟨[], []⟩, ⟨fun _ => none⟩⟩

/-- A reddit client that resolves exactly the post `t3_abc123`. -/
def envOne : RedditEnv :=
  ⟨fun id => if id == "t3_abc123" then some ⟨some "Author1", some "Title1", false⟩ else none⟩

/-- A world around `envOne` with empty preference tables. -/
def wOne : World := ⟨⟨[], []⟩, envOne⟩

/-- The empty entity store. -/
def emptyStore : Store := ⟨[], []⟩

/-- The cycle state at the start of a cycle on an empty store. -/
def emptyCycle : CycleState := ⟨emptyStore, []⟩

/-- A links table holding two notifiable rows for source `S` inserted in
descending order, one skipped row, and one row of another source. -/
def storeC6 : Store :=
  ⟨[], [⟨"l1", "S", "/p1", "b", false, "u", "x", 0⟩,
        ⟨"l2", "S", "/p2", "a", false, "u", "y", 0⟩,
        ⟨"l3", "S", "/p3", "a", true, "u", "q", 0⟩,
        ⟨"l4", "T", "/p4", "a", false, "u", "z", 0⟩]⟩

/-- A new-enough candidate whose URL path is not a thread path. -/
def candBad : Candidate := ⟨⟨"t3_bad000", "S", some "V", "t", "/p", "nota", 0, true⟩, 500⟩

/-- A well-formed linking submission for the post `t3_abc123`. -/
def submGood : LinkSubm :=
  ⟨"t3_zzz999", "AskReddit", some "V", "t", "/p", "/r/relationship_advice/comments/abc123/some_title/", 0, true⟩

/-- `submGood` examined 500 seconds after its creation. -/
def candGood : Candidate := ⟨submGood, 500⟩

/-- `submGood` examined only 100 seconds after its creation. -/
def candNew : Candidate := ⟨submGood, 100⟩

/-- A 138-character title, longer than `TITLE_LIMIT`. -/
def longTitle : String := String.mk (List.replicate 138 'a')

/-- Forty-one links — one more than `LINKS_BEFORE_TITLE_CUTOFF` — all bearing
`longTitle`. -/
def links41 : List (String × String × String) := List.replicate 41 ("s", longTitle, "/p")

/-! ### Helper lemmas -/

/-- Matching a literal fragment consumes exactly itself. -/
theorem dropLit_append (p s : List Char) : dropLit p (p ++ s) = some s := by
  induction p with
  | nil => rfl
  | cons a as ih => simp [dropLit, ih]

/-- `takeWhile` over a list whose front all satisfies the predicate and whose
next element does not returns exactly the front. -/
theorem takeWhile_middle {α : Type} {p : α → Bool} {l : List α}
    (h : ∀ c ∈ l, p c = true) {x : α} (hx : p x = false) (r : List α) :
    (l ++ x :: r).takeWhile p = l := by
  induction l with
  | nil =>
    rw [List.nil_append, List.takeWhile_cons, hx]
    rfl
  | cons a as ih =>
    have hsplit : p a = true ∧ ∀ c ∈ as, p c = true :=
      ⟨h a (List.mem_cons_self a as), fun c hc => h c (List.mem_cons_of_mem a hc)⟩
    rw [List.cons_append, List.takeWhile_cons, hsplit.1, if_pos rfl, ih hsplit.2]

theorem commentsLit_eq : commentsLit = '/' :: commentsTail := rfl

/-- `matchId` on a well-formed id group followed by input that cannot extend
the `[a-z0-9]` run. -/
theorem matchId_concat {post tail : List Char}
    (hpost : ∀ c ∈ post, isIdChar c = true) (h6 : 6 ≤ post.length) (h8 : post.length ≤ 8)
    (htail : tail = [] ∨ ∃ c rest, tail = c :: rest ∧ isIdChar c = false) :
    matchId (post ++ tail) = some (post, tail) := by
  have hrun : (post ++ tail).takeWhile isIdChar = post := by
    rcases htail with h | ⟨c, rest, hceq, hc⟩
    · rw [h, List.append_nil]
      exact List.takeWhile_eq_self_iff.mpr (by simpa using hpost)
    · rw [hceq]
      exact takeWhile_middle hpost hc rest
  have htake : post.take 8 = post := List.take_of_length_le h8
  unfold matchId
  rw [hrun]
  simp only [htake]
  rw [if_neg (by omega), List.drop_left]

/-- `pathMatch` on a path of the regex's shape with a residue that cannot
extend the post-id run produces the three expected groups. -/
theorem pathMatch_concat (sub post tail : List Char)
    (hsub : sub ≠ []) (hsub2 : ∀ c ∈ sub, (c != '/') = true)
    (hpost : ∀ c ∈ post, isIdChar c = true) (h6 : 6 ≤ post.length) (h8 : post.length ≤ 8)
    (htail : tail = [] ∨ ∃ c rest, tail = c :: rest ∧ isIdChar c = false) :
    pathMatch (rLit ++ sub ++ commentsLit ++ post ++ tail) =
      some ⟨sub, post, matchCommentPart tail⟩ := by
  have h1 : rLit ++ sub ++ commentsLit ++ post ++ tail =
      rLit ++ (sub ++ ('/' :: (commentsTail ++ (post ++ tail)))) := by
    simp [commentsLit_eq, List.append_assoc]
  rw [h1]
  simp only [pathMatch, dropLit_append]
  have hslash : (('/' : Char) != '/') = false := by decide
  rw [takeWhile_middle hsub2 hslash _]
  rw [if_neg (by simpa using hsub)]
  rw [List.drop_left]
  have h2 : ('/' :: (commentsTail ++ (post ++ tail))) = commentsLit ++ (post ++ tail) := by
    simp [commentsLit_eq]
  rw [h2, dropLit_append]
  simp only [matchId_concat hpost h6 h8 htail]

/-- `matchCommentPart` on a well-formed optional group followed by residual
input that cannot extend the comment-id run. -/
theorem matchCommentPart_concat {seg cid tail2 : List Char}
    (hseg : seg ≠ []) (hseg2 : ∀ c ∈ seg, (c != '/') = true)
    (hcid : ∀ c ∈ cid, isIdChar c = true) (h6 : 6 ≤ cid.length) (h8 : cid.length ≤ 8)
    (htail2 : tail2 = [] ∨ ∃ c rest, tail2 = c :: rest ∧ isIdChar c = false) :
    matchCommentPart ('/' :: (seg ++ '/' :: (cid ++ tail2))) = some cid := by
  have hslash : (('/' : Char) != '/') = false := by decide
  have hid : matchId (cid ++ tail2) = some (cid, tail2) := matchId_concat hcid h6 h8 htail2
  show (if ('/' : Char) = '/' then
      let seg2 := (seg ++ '/' :: (cid ++ tail2)).takeWhile (fun c => c != '/')
      if seg2.length = 0 then none
      else
        match (seg ++ '/' :: (cid ++ tail2)).drop seg2.length with
        | [] => none
        | c2 :: rest2 =>
          if c2 = '/' then
            match matchId rest2 with
            | some (cid2, _) => some cid2
            | none => none
          else none
    else none) = some cid
  rw [if_pos rfl]
  rw [takeWhile_middle hseg2 hslash _]
  have hlen : ¬(seg.length = 0) := fun h => hseg (List.length_eq_zero.mp h)
  simp [hlen, List.drop_left, hid]

/-- The residue side condition in decidable form: a residue whose first
character (if any) is not an id character is either empty or headed by a
non-id character. -/
theorem headNotId_cases {tail : List Char} (h : ∀ c ∈ tail.take 1, isIdChar c = false) :
    tail = [] ∨ ∃ c rest, tail = c :: rest ∧ isIdChar c = false := by
  cases tail with
  | nil => exact Or.inl rfl
  | cons c rest => exact Or.inr ⟨c, rest, rfl, h c (by simp)⟩

/-! ### Claim C5 -/

/-- C5: identity resolution parses the path against
`/r/{subreddit}/comments/{postId}[/{anything}/{commentId}]` with the regex's
greedy leftmost semantics, arbitrary trailing input allowed: on every
matching path whose optional comment group fails to match (any residue
`tail` after the post id with `matchCommentPart tail = none`, e.g. a
trailing title segment) it returns `t3_` + postId; on every matching path
whose comment group is present (any residue after the comment id) it
returns `t1_` + commentId; both come with the subreddit taken from the
path. In full generality, every path on which the regex produces a match
resolves to `t1_` + the comment capture when that group matched and
`t3_` + the post capture otherwise, with the subreddit capture; and every
path the regex does not match fails with `NotAComment`. Resolution is a
pure total function of the path, hence deterministic. -/
theorem c5_parse_path :
    (∀ sub post tail : List Char,
      sub ≠ [] → (∀ c ∈ sub, (c != '/') = true) →
      (∀ c ∈ post, isIdChar c = true) → 6 ≤ post.length → post.length ≤ 8 →
      (∀ c ∈ tail.take 1, isIdChar c = false) →
      matchCommentPart tail = none →
      parsePath (rLit ++ sub ++ commentsLit ++ post ++ tail) =
        .ok (['t', '3', '_'] ++ post, sub))
    ∧ (∀ sub post seg cid tail2 : List Char,
      sub ≠ [] → (∀ c ∈ sub, (c != '/') = true) →
      (∀ c ∈ post, isIdChar c = true) → 6 ≤ post.length → post.length ≤ 8 →
      seg ≠ [] → (∀ c ∈ seg, (c != '/') = true) →
      (∀ c ∈ cid, isIdChar c = true) → 6 ≤ cid.length → cid.length ≤ 8 →
      (∀ c ∈ tail2.take 1, isIdChar c = false) →
      parsePath (rLit ++ sub ++ commentsLit ++ post ++
          '/' :: (seg ++ '/' :: (cid ++ tail2))) =
        .ok (['t', '1', '_'] ++ cid, sub))
    ∧ (∀ (p : List Char) (m : PathMatch), pathMatch p = some m →
      parsePath p = .ok ((match m.comment with
        | some cid => ['t', '1', '_'] ++ cid
        | none => ['t', '3', '_'] ++ m.post), m.subreddit))
    ∧ (∀ p : List Char, pathMatch p = none → parsePath p = .error .notAComment) := by
  refine ⟨?_, ?_, ?_, ?_⟩
  · intro sub post tail hsub hsub2 hpost h6 h8 htail hnone
    have h := pathMatch_concat sub post tail hsub hsub2 hpost h6 h8 (headNotId_cases htail)
    unfold parsePath
    rw [h, hnone]
  · intro sub post seg cid tail2 hsub hsub2 hpost h6 h8 hseg hseg2 hcid hc6 hc8 htail2
    have h := pathMatch_concat sub post ('/' :: (seg ++ '/' :: (cid ++ tail2)))
      hsub hsub2 hpost h6 h8
      (Or.inr ⟨'/', seg ++ '/' :: (cid ++ tail2), rfl, by decide⟩)
    unfold parsePath
    rw [h, matchCommentPart_concat hseg hseg2 hcid hc6 hc8 (headNotId_cases htail2)]
  · intro p m hp
    unfold parsePath
    rw [hp]
    cases hc : m.comment <;> simp [hc]
  · intro p hp
    unfold parsePath
    rw [hp]

/-- Concrete instantiation of `c5_parse_path`: the canonical post path with a
trailing title segment, a comment path with a trailing slash, a
ten-character id run clipped greedily to eight, and a non-matching path. -/
theorem c5_parse_path_witness :
    parsePath "/r/relationship_advice/comments/abc123/some_title/".toList =
      .ok ("t3_abc123".toList, "relationship_advice".toList)
    ∧ parsePath "/r/x/comments/abc123/title/def456/".toList =
      .ok ("t1_def456".toList, "x".toList)
    ∧ pathMatch "/r/sub/comments/abcdefghij".toList =
        some ⟨"sub".toList, "abcdefgh".toList, none⟩
    ∧ parsePath "/r/sub/comments/abcdefghij".toList =
        .ok ("t3_abcdefgh".toList, "sub".toList)
    ∧ pathMatch "no".toList = none
    ∧ parsePath "no".toList = .error .notAComment := by
  refine ⟨?_, ?_, by decide, ?_, by decide, c5_parse_path.2.2.2 "no".toList (by decide)⟩
  · have h := c5_parse_path.1 "relationship_advice".toList "abc123".toList "/some_title/".toList
      (by decide) (by decide) (by decide) (by decide) (by decide) (by decide) (by decide)
    have heq : "/r/relationship_advice/comments/abc123/some_title/".toList =
        rLit ++ "relationship_advice".toList ++ commentsLit ++ "abc123".toList ++
          "/some_title/".toList := by decide
    rw [heq, h]
    decide
  · have h := c5_parse_path.2.1 "x".toList "abc123".toList "title".toList "def456".toList ['/']
      (by decide) (by decide) (by decide) (by decide) (by decide) (by decide) (by decide)
      (by decide) (by decide) (by decide) (by decide)
    have heq : "/r/x/comments/abc123/title/def456/".toList =
        rLit ++ "x".toList ++ commentsLit ++ "abc123".toList ++
          '/' :: ("title".toList ++ '/' :: ("def456".toList ++ ['/'])) := by decide
    rw [heq, h]
    decide
  · have h := c5_parse_path.2.2.1 "/r/sub/comments/abcdefghij".toList
      ⟨"sub".toList, "abcdefgh".toList, none⟩ (by decide)
    rw [h]
    decide

/-! ### Claim C8 -/

theorem updSourceRow_idem (s : Src) (r : SourceRow) :
    updSourceRow s (updSourceRow s r) = updSourceRow s r := rfl

theorem updLinkRow_idem (l : Lnk) (r : LinkRow) :
    updLinkRow l (updLinkRow l r) = updLinkRow l r := rfl

/-- After a save, a source row with the saved id exists. -/
theorem source_exists_save (s : Src) (st : Store) (t : Nat) :
    source_exists (Src.save s st t) s.id = true := by
  unfold Src.save
  by_cases h : source_exists st s.id
  · rw [if_pos h]
    unfold source_exists at h ⊢
    rw [List.any_map]
    rcases List.any_eq_true.mp h with ⟨r, hr, hpr⟩
    exact List.any_eq_true.mpr ⟨r, hr, by simp [Function.comp, hpr, updSourceRow]⟩
  · rw [if_neg h]
    unfold source_exists
    simp [SourceRow.ofSrc]

/-- After a save, a link row with the saved id exists. -/
theorem link_exists_save (l : Lnk) (st : Store) (t : Nat) :
    link_exists (Lnk.save l st t) l.id = true := by
  unfold Lnk.save
  by_cases h : link_exists st l.id
  · rw [if_pos h]
    unfold link_exists at h ⊢
    rw [List.any_map]
    rcases List.any_eq_true.mp h with ⟨r, hr, hpr⟩
    exact List.any_eq_true.mpr ⟨r, hr, by simp [Function.comp, hpr, updLinkRow]⟩
  · rw [if_neg h]
    unfold link_exists
    simp [LinkRow.ofLnk]

/-- The per-row source UPDATE function is idempotent. -/
theorem sourceUpdFun_idem (s : Src) (r : SourceRow) :
    (fun r => if r.id == s.id then updSourceRow s r else r)
      ((fun r => if r.id == s.id then updSourceRow s r else r) r) =
    (fun r => if r.id == s.id then updSourceRow s r else r) r := by
  by_cases hr : r.id == s.id
  · simp only [hr, if_true]
    have : (updSourceRow s r).id == s.id := hr
    simp [this, updSourceRow_idem]
  · simp [hr]

/-- The per-row link UPDATE function is idempotent. -/
theorem linkUpdFun_idem (l : Lnk) (r : LinkRow) :
    (fun r => if r.id == l.id then updLinkRow l r else r)
      ((fun r => if r.id == l.id then updLinkRow l r else r) r) =
    (fun r => if r.id == l.id then updLinkRow l r else r) r := by
  by_cases hr : r.id == l.id
  · simp only [hr, if_true]
    have : (updLinkRow l r).id == l.id := hr
    simp [this, updLinkRow_idem]
  · simp [hr]

/-- C8: `save()` is idempotent — saving an unchanged Source or Link twice
leaves the store equal to saving it once — and the UPDATE path never touches
a row's creation timestamp, which is fixed at first insert. -/
theorem c8_save_idempotent :
    (∀ (s : Src) (st : Store) (t₁ t₂ : Nat),
      Src.save s (Src.save s st t₁) t₂ = Src.save s st t₁)
    ∧ (∀ (l : Lnk) (st : Store) (t₁ t₂ : Nat),
      Lnk.save l (Lnk.save l st t₁) t₂ = Lnk.save l st t₁)
    ∧ (∀ (s : Src) (st : Store) (t : Nat), source_exists st s.id = true →
      (Src.save s st t).sources.map SourceRow.t = st.sources.map SourceRow.t)
    ∧ (∀ (l : Lnk) (st : Store) (t : Nat), link_exists st l.id = true →
      (Lnk.save l st t).links.map LinkRow.t = st.links.map LinkRow.t) := by
  refine ⟨?_, ?_, ?_, ?_⟩
  · intro s st t₁ t₂
    by_cases h : source_exists st s.id
    · conv_lhs => rw [Src.save, if_pos (source_exists_save s st t₁)]
      unfold Src.save
      rw [if_pos h]
      simp only [List.map_map]
      congr 1
      exact List.map_congr_left (fun r _ => sourceUpdFun_idem s r)
    · conv_lhs => rw [Src.save, if_pos (source_exists_save s st t₁)]
      unfold Src.save
      rw [if_neg h]
      have hall := List.any_eq_false.mp (Bool.of_not_eq_true h)
      have h1 : List.map (fun r => if (r.id == s.id) = true then updSourceRow s r else r)
          st.sources = st.sources := by
        have := List.map_congr_left (l := st.sources)
          (f := fun r => if (r.id == s.id) = true then updSourceRow s r else r) (g := id)
          (fun r hr => by simp [Bool.of_not_eq_true (hall r hr)])
        simpa using this
      have h2 : List.map (fun r => if (r.id == s.id) = true then updSourceRow s r else r)
          [SourceRow.ofSrc s t₁] = [SourceRow.ofSrc s t₁] := by
        simp [SourceRow.ofSrc, updSourceRow]
      simp only [List.map_append, h1, h2]
  · intro l st t₁ t₂
    by_cases h : link_exists st l.id
    · conv_lhs => rw [Lnk.save, if_pos (link_exists_save l st t₁)]
      unfold Lnk.save
      rw [if_pos h]
      simp only [List.map_map]
      congr 1
      exact List.map_congr_left (fun r _ => linkUpdFun_idem l r)
    · conv_lhs => rw [Lnk.save, if_pos (link_exists_save l st t₁)]
      unfold Lnk.save
      rw [if_neg h]
      have hall := List.any_eq_false.mp (Bool.of_not_eq_true h)
      have h1 : List.map (fun r => if (r.id == l.id) = true then updLinkRow l r else r)
          st.links = st.links := by
        have := List.map_congr_left (l := st.links)
          (f := fun r => if (r.id == l.id) = true then updLinkRow l r else r) (g := id)
          (fun r hr => by simp [Bool.of_not_eq_true (hall r hr)])
        simpa using this
      have h2 : List.map (fun r => if (r.id == l.id) = true then updLinkRow l r else r)
          [LinkRow.ofLnk l t₁] = [LinkRow.ofLnk l t₁] := by
        simp [LinkRow.ofLnk, updLinkRow]
      simp only [List.map_append, h1, h2]
  · intro s st t h
    unfold Src.save
    rw [if_pos h]
    simp only [List.map_map]
    exact List.map_congr_left (fun r _ => by
      by_cases hr : r.id == s.id <;> simp [Function.comp, hr, updSourceRow])
  · intro l st t h
    unfold Lnk.save
    rw [if_pos h]
    simp only [List.map_map]
    exact List.map_congr_left (fun r _ => by
      by_cases hr : r.id == l.id <;> simp [Function.comp, hr, updLinkRow])

/-- Concrete instantiation of `c8_save_idempotent` on a one-row store. -/
theorem c8_save_idempotent_witness :
    source_exists ⟨[⟨"t3_aaaaaa", none, "s", some "u", some "ttl", false, 7⟩], []⟩ "t3_aaaaaa" = true
    ∧ (Src.save ⟨"t3_aaaaaa", "s", some "u", some "ttl", some "t1_r", true, false⟩
        ⟨[⟨"t3_aaaaaa", none, "s", some "u", some "ttl", false, 7⟩], []⟩ 9).sources.map SourceRow.t =
      [7]
    ∧ link_exists ⟨[], [⟨"t3_bbbbbb", "t3_aaaaaa", "/p", "s", false, "u", "ttl", 5⟩]⟩ "t3_bbbbbb" = true
    ∧ (Lnk.save ⟨"t3_bbbbbb", "s", true, "u", "ttl", "/p", "t3_aaaaaa", false⟩
        ⟨[], [⟨"t3_bbbbbb", "t3_aaaaaa", "/p", "s", false, "u", "ttl", 5⟩]⟩ 9).links.map LinkRow.t =
      [5] := by
  refine ⟨by decide, ?_, by decide, ?_⟩
  · rw [c8_save_idempotent.2.2.1 _ _ 9 (by decide)]
    decide
  · rw [c8_save_idempotent.2.2.2 _ _ 9 (by decide)]
    decide

/-! ### Claim C7 -/

/-- C7: on an instance whose `skip` flag is already true, `check_skip`
returns true immediately with zero preference-store queries; and whenever a
`check_skip` call returns true, the instance's `skip` flag is latched, so
every later `check_skip` call on that instance also returns true (and issues
no store query). -/
theorem c7_skip_latch :
    (∀ (s : Src) (ps : PrefStore) (env : RedditEnv), s.skip = true →
      Src.check_skip s ps env = .ok (true, s, 0))
    ∧ (∀ (l : Lnk) (ps : PrefStore), l.skip = true →
      Lnk.check_skip l ps = (true, l, 0))
    ∧ (∀ (s : Src) (ps : PrefStore) (env : RedditEnv) (s2 : Src) (q : Nat),
      Src.check_skip s ps env = .ok (true, s2, q) →
      s2.skip = true ∧ ∀ (ps2 : PrefStore) (env2 : RedditEnv),
        Src.check_skip s2 ps2 env2 = .ok (true, s2, 0))
    ∧ (∀ (l : Lnk) (ps : PrefStore) (l2 : Lnk) (q : Nat),
      Lnk.check_skip l ps = (true, l2, q) →
      l2.skip = true ∧ ∀ ps2 : PrefStore, Lnk.check_skip l2 ps2 = (true, l2, 0)) := by
  have hsrc : ∀ (s : Src) (ps : PrefStore) (env : RedditEnv), s.skip = true →
      Src.check_skip s ps env = .ok (true, s, 0) := by
    intro s ps env h
    unfold Src.check_skip
    rw [if_pos h]
  have hlnk : ∀ (l : Lnk) (ps : PrefStore), l.skip = true →
      Lnk.check_skip l ps = (true, l, 0) := by
    intro l ps h
    unfold Lnk.check_skip
    rw [if_pos h]
  refine ⟨hsrc, hlnk, ?_, ?_⟩
  · intro s ps env s2 q h
    unfold Src.check_skip at h
    by_cases h1 : s.skip = true
    · rw [if_pos h1] at h
      simp only [Except.ok.injEq, Prod.mk.injEq] at h
      obtain ⟨-, h2, -⟩ := h
      subst h2
      exact ⟨h1, fun ps2 env2 => hsrc s ps2 env2 h1⟩
    · rw [if_neg h1] at h
      by_cases hu : userSkipSource ps s.author = true
      · rw [if_pos hu] at h
        simp only [Except.ok.injEq, Prod.mk.injEq] at h
        obtain ⟨-, h2, -⟩ := h
        subst h2
        exact ⟨rfl, fun ps2 env2 => hsrc _ ps2 env2 rfl⟩
      · rw [if_neg hu] at h
        by_cases hb : subSkipSource ps s.subreddit = true
        · rw [if_pos hb] at h
          simp only [Except.ok.injEq, Prod.mk.injEq] at h
          obtain ⟨-, h2, -⟩ := h
          subst h2
          exact ⟨rfl, fun ps2 env2 => hsrc _ ps2 env2 rfl⟩
        · rw [if_neg hb] at h
          cases hs : s.getSubmission env with
          | error e =>
            rw [hs] at h
            exact absurd h (by simp)
          | ok sub =>
            rw [hs] at h
            dsimp only at h
            by_cases ha : sub.archived = true
            · rw [if_pos ha] at h
              simp only [Except.ok.injEq, Prod.mk.injEq] at h
              obtain ⟨-, h2, -⟩ := h
              subst h2
              exact ⟨rfl, fun ps2 env2 => hsrc _ ps2 env2 rfl⟩
            · rw [if_neg ha] at h
              simp at h
  · intro l ps l2 q h
    unfold Lnk.check_skip at h
    by_cases h1 : l.skip = true
    · rw [if_pos h1] at h
      simp only [Prod.mk.injEq] at h
      obtain ⟨-, h2, -⟩ := h
      subst h2
      exact ⟨h1, fun ps2 => hlnk l ps2 h1⟩
    · rw [if_neg h1] at h
      by_cases hu : userSkipLink ps l.author = true
      · rw [if_pos hu] at h
        simp only [Prod.mk.injEq] at h
        obtain ⟨-, h2, -⟩ := h
        subst h2
        exact ⟨rfl, fun ps2 => hlnk _ ps2 rfl⟩
      · rw [if_neg hu] at h
        by_cases hb : subSkipLink ps (lowerStr l.subreddit) = true
        · rw [if_pos hb] at h
          simp only [Prod.mk.injEq] at h
          obtain ⟨-, h2, -⟩ := h
          subst h2
          exact ⟨rfl, fun ps2 => hlnk _ ps2 rfl⟩
        · rw [if_neg hb] at h
          simp at h

/-- Concrete instantiation of `c7_skip_latch`: a latched Source and a latched
Link. -/
theorem c7_skip_latch_witness :
    Src.check_skip ⟨"t3_aaaaaa", "s", some "u", some "ttl", none, true, true⟩ ⟨[], []⟩
      ⟨fun _ => none⟩ = .ok (true, ⟨"t3_aaaaaa", "s", some "u", some "ttl", none, true, true⟩, 0)
    ∧ Lnk.check_skip ⟨"t3_bbbbbb", "s", true, "u", "ttl", "/p", "t3_aaaaaa", true⟩ ⟨[], []⟩ =
      (true, ⟨"t3_bbbbbb", "s", true, "u", "ttl", "/p", "t3_aaaaaa", true⟩, 0) :=
  ⟨c7_skip_latch.1 _ _ _ rfl, c7_skip_latch.2.1 _ _ rfl⟩

/-! ### Claim C9 -/

/-- C9: `Source.load` hydrates every field (reply, subreddit, author, title,
skip) from an existing store row, marks the source not-new and performs no
external fetch; with no row it resolves the author (lowercased external
name, or the `[deleted]` sentinel when the author is unavailable) and the
title (the real title, or the `[comment]` sentinel for a comment) from the
fetched submission, leaving `is_new` untouched (true for a fresh source);
and fetching an id that no longer resolves fails with `SubmissionNotFound`
carrying that id. -/
theorem c9_source_load :
    (∀ (s : Src) (st : Store) (env : RedditEnv) (row : SourceRow),
      findSource st s.id = some row →
      Src.load s st env =
        .ok ({ s with
               reply := row.reply,
               subreddit := row.subreddit,
               author := row.author,
               title := row.title,
               skip := row.skip,
               isNew := false }, false))
    ∧ (∀ (s : Src) (st : Store) (env : RedditEnv) (sub : Subm) (a : String),
      findSource st s.id = none → env.fetch s.id = some sub →
      s.author = none → sub.author = some a →
      Src.load s st env =
        .ok ({ s with
               author := some (lowerStr a),
               title := some (sub.title.getD "[comment]") }, true))
    ∧ (∀ (s : Src) (st : Store) (env : RedditEnv) (sub : Subm),
      findSource st s.id = none → env.fetch s.id = some sub →
      sub.author = none →
      Src.load s st env =
        .ok ({ s with
               author := some "[deleted]",
               title := some (sub.title.getD "[comment]") }, true))
    ∧ (∀ (s : Src) (st : Store) (env : RedditEnv),
      findSource st s.id = none → env.fetch s.id = none →
      Src.load s st env = .error (.submissionNotFound s.id)) := by
  refine ⟨?_, ?_, ?_, ?_⟩
  · intro s st env row hfind
    unfold Src.load
    rw [hfind]
  · intro s st env sub a hfind hfetch hsa hsub
    unfold Src.load
    rw [hfind]
    unfold Src.getSubmission
    rw [hfetch]
    dsimp only
    rw [hsa, hsub]
    simp only [optTruthy, Option.isSome_some, Bool.not_false, Bool.and_self, if_true,
      Option.getD_some]
    cases htt : sub.title <;> simp [Option.getD]
  · intro s st env sub hfind hfetch hsub
    unfold Src.load
    rw [hfind]
    unfold Src.getSubmission
    rw [hfetch]
    dsimp only
    rw [hsub]
    simp only [Option.isSome_none, Bool.and_false, if_false]
    cases htt : sub.title <;> simp [Option.getD]
  · intro s st env hfind hfetch
    unfold Src.load
    rw [hfind]
    unfold Src.getSubmission
    rw [hfetch]

/-- Concrete instantiation of `c9_source_load`: hydration from a row, fresh
resolution through `envOne`, and the not-found failure through
`wNoFetch`. -/
theorem c9_source_load_witness :
    findSource ⟨[⟨"t3_abc123", some "t1_r", "s", some "u", some "ttl", true, 3⟩], []⟩ "t3_abc123" =
      some ⟨"t3_abc123", some "t1_r", "s", some "u", some "ttl", true, 3⟩
    ∧ Src.load ⟨"t3_abc123", "relationship_advice", none, none, none, false, true⟩
        ⟨[⟨"t3_abc123", some "t1_r", "s", some "u", some "ttl", true, 3⟩], []⟩ envOne =
      .ok (⟨"t3_abc123", "s", some "u", some "ttl", some "t1_r", true, false⟩, false)
    ∧ Src.load ⟨"t3_abc123", "relationship_advice", none, none, none, false, true⟩
        emptyStore envOne =
      .ok (⟨"t3_abc123", "relationship_advice", some "author1", some "Title1", none, false, true⟩, true)
    ∧ Src.load ⟨"t3_abc123", "relationship_advice", none, none, none, false, true⟩
        emptyStore wNoFetch.env =
      .error (.submissionNotFound "t3_abc123") := by
  refine ⟨by decide, ?_, ?_, ?_⟩
  · exact c9_source_load.1 ⟨"t3_abc123", "relationship_advice", none, none, none, false, true⟩
      ⟨[⟨"t3_abc123", some "t1_r", "s", some "u", some "ttl", true, 3⟩], []⟩ envOne
      ⟨"t3_abc123", some "t1_r", "s", some "u", some "ttl", true, 3⟩ (by decide)
  · have h := c9_source_load.2.1 ⟨"t3_abc123", "relationship_advice", none, none, none, false, true⟩
      emptyStore envOne ⟨some "Author1", some "Title1", false⟩ "Author1"
      (by decide) (by decide) (by decide) (by decide)
    rw [h]
    decide
  · exact c9_source_load.2.2.2 ⟨"t3_abc123", "relationship_advice", none, none, none, false, true⟩
      emptyStore wNoFetch.env (by decide) (by rfl)

/-! ### Claim C6 -/

/-- C6: on a freshly built notification, `should_notify` populates the link
list with exactly the stored links whose `source` equals the source's
identifier and whose `skip` flag is false (a permutation of that selection),
in ascending (subreddit, title) order, independently of the table's
insertion order, and returns true iff the populated list is nonempty. -/
theorem c6_should_notify :
    ∀ (st : Store) (n : Notif), n.links = [] →
      ((Notif.should_notify n st).2.links).Perm
        ((st.links.filter (fun r => (r.source == n.sourceId) && (r.skip == false))).map
          (fun r => (r.subreddit, r.title, r.permalink)))
      ∧ List.Sorted linkKeyLE (Notif.should_notify n st).2.links
      ∧ ((Notif.should_notify n st).1 = true ↔ (Notif.should_notify n st).2.links ≠ [])
      ∧ ∀ st2 : Store, st.links.Perm st2.links →
          ((Notif.should_notify n st).2.links).Perm ((Notif.should_notify n st2).2.links) := by
  intro st n hn
  have hl : ∀ stx : Store, (Notif.should_notify n stx).2.links = queryLinks stx n.sourceId := by
    intro stx
    simp [Notif.should_notify, hn]
  have hperm : ∀ stx : Store, (queryLinks stx n.sourceId).Perm
      ((stx.links.filter (fun r => (r.source == n.sourceId) && (r.skip == false))).map
        (fun r => (r.subreddit, r.title, r.permalink))) := by
    intro stx
    exact List.perm_insertionSort linkKeyLE _
  refine ⟨?_, ?_, ?_, ?_⟩
  · rw [hl st]
    exact hperm st
  · rw [hl st]
    exact List.sorted_insertionSort linkKeyLE _
  · have : (Notif.should_notify n st).1 = !(Notif.should_notify n st).2.links.isEmpty := by
      simp [Notif.should_notify]
    rw [this]
    cases hq : (Notif.should_notify n st).2.links <;> simp
  · intro st2 h2
    refine ((hl st ▸ hperm st).trans ?_).trans (hl st2 ▸ hperm st2).symm
    exact ((h2.filter _).map _)

/-- Concrete instantiation of `c6_should_notify` on `storeC6`, whose two
selectable rows are stored in descending order. -/
theorem c6_should_notify_witness :
    (Notif.ofSrc ⟨"S", "s", none, none, none, false, true⟩).links = []
    ∧ ((Notif.should_notify (Notif.ofSrc ⟨"S", "s", none, none, none, false, true⟩) storeC6).2.links).Perm
        ((storeC6.links.filter (fun r => (r.source == "S") && (r.skip == false))).map
          (fun r => (r.subreddit, r.title, r.permalink)))
    ∧ List.Sorted linkKeyLE
        (Notif.should_notify (Notif.ofSrc ⟨"S", "s", none, none, none, false, true⟩) storeC6).2.links
    ∧ ((Notif.should_notify (Notif.ofSrc ⟨"S", "s", none, none, none, false, true⟩) storeC6).1 = true ↔
        (Notif.should_notify (Notif.ofSrc ⟨"S", "s", none, none, none, false, true⟩) storeC6).2.links ≠ [])
    ∧ (Notif.should_notify (Notif.ofSrc ⟨"S", "s", none, none, none, false, true⟩) storeC6).2.links =
        [("a", "y", "/p2"), ("b", "x", "/p1")] := by
  have h := c6_should_notify storeC6 (Notif.ofSrc ⟨"S", "s", none, none, none, false, true⟩) rfl
  exact ⟨rfl, h.1, h.2.1, h.2.2.1, by decide⟩

/-! ### Claim C1 -/

set_option maxRecDepth 40000 in
/-- C1 counterexample: the claim says that whenever the linking submission's
subreddit is not `ra_automod` the source is never queued; but the guard of
`Totes.run` forces `skip_any` only when the source subreddit differs from
`relationship_advice` AND the link subreddit differs from `ra_automod`, so a
new `relationship_advice` source linked from `askreddit` (neither side
skipped) is queued: here `queueDecision` is true, and running the full
per-submission body on such a candidate leaves the source in the
notification batch. -/
theorem c1_counterexample :
    queueDecision ⟨"t3_abc123", "relationship_advice", some "u", some "t", none, false, true⟩
        ⟨"t3_zzz999", "askreddit", false, "v", "t", "/p", "t3_abc123", true⟩ = true
    ∧ ("askreddit" : String) ≠ "ra_automod"
    ∧ (⟨"t3_abc123", "relationship_advice", some "u", some "t", none, false, true⟩ : Src).skip = false
    ∧ (⟨"t3_zzz999", "askreddit", false, "v", "t", "/p", "t3_abc123", true⟩ : Lnk).skip = false
    ∧ lowerStr submGood.subredditDisplayName = "askreddit"
    ∧ (processSubmission wOne emptyCycle candGood).1.queued.map Src.id = ["t3_abc123"] := by
  refine ⟨by decide, by decide, rfl, rfl, by decide, by decide⟩

/-- C1 (amended): `skip_any` is forced true exactly when the source subreddit
differs from `relationship_advice` AND the link subreddit differs from
`ra_automod`; hence a source reaches the notification batch iff one side is
new, neither skip flag is set, and the source subreddit is
`relationship_advice` or the link subreddit is `ra_automod`. -/
theorem c1_queue_rule :
    ∀ (s : Src) (l : Lnk),
      queueDecision s l = true ↔
        ((s.isNew = true ∨ l.isNew = true) ∧ s.skip = false ∧ l.skip = false ∧
         (s.subreddit = "relationship_advice" ∨ l.subreddit = "ra_automod")) := by
  intro s l
  unfold queueDecision
  by_cases h1 : s.subreddit = "relationship_advice" <;>
    by_cases h2 : l.subreddit = "ra_automod" <;>
      simp [h1, h2, bne]

/-! ### Claim C10 -/

/-- C10: a candidate examined fewer than `POST_TIME` (120) seconds after its
creation is skipped entirely for the cycle: the per-submission body returns
the cycle state unchanged (nothing resolved, persisted or queued) and raises
nothing. -/
theorem c10_too_new_skipped :
    ∀ (w : World) (st : CycleState) (c : Candidate),
      c.now - c.subm.createdUtc < POST_TIME →
      processSubmission w st c = (st, none) := by
  intro w st c h
  unfold processSubmission
  rw [if_pos h]

/-- Concrete instantiation of `c10_too_new_skipped`: `candNew` is 100 seconds
old when examined. -/
theorem c10_too_new_skipped_witness :
    candNew.now - candNew.subm.createdUtc < POST_TIME
    ∧ processSubmission wOne emptyCycle candNew = (emptyCycle, none) :=
  ⟨by decide, c10_too_new_skipped wOne emptyCycle candNew (by decide)⟩

/-! ### Claim C2 -/

/-- C2: recoverable failures are isolated per unit. A failure inside the
protected source-resolution `try` leaves the cycle state untouched and the
body continues (returns without error); a failure inside the protected
link-resolution `try` keeps only the already committed source save and
continues; a failed `post_reply` inside the dispatch `try` leaves the store
and the reply state unchanged (rolled back) and the dispatch loop continues
with the accumulator intact; and the candidate loop proceeds to the rest of
the batch after any unit that returned without error. -/
theorem c2_recoverable_isolated :
    (∀ (w : World) (st : CycleState) (c : Candidate) (e : TotesErr),
      ¬(c.now - c.subm.createdUtc < POST_TIME) →
      sourceResolve w st.store c.subm.url = .error e →
      processSubmission w st c = (st, none))
    ∧ (∀ (w : World) (st : CycleState) (c : Candidate) (src src2 : Src) (b : Bool) (q : Nat),
      ¬(c.now - c.subm.createdUtc < POST_TIME) →
      sourceResolve w st.store c.subm.url = .ok src →
      Src.check_skip src w.prefs w.env = .ok (b, src2, q) →
      c.subm.attrsOk = false →
      processSubmission w st c = ({ st with store := Src.save src2 st.store c.now.toNat }, none))
    ∧ (∀ (w : World) (test : Bool) (now : Nat) (st : Store) (rs : RState) (s : Src) (e : TotesErr),
      Notif.post_reply (Notif.should_notify (Notif.ofSrc s) st).2 test st rs w.env now = .error e →
      dispatchOne w test now (st, rs) s = (st, rs))
    ∧ (∀ (w : World) (st st2 : CycleState) (c : Candidate) (rest : List Candidate),
      processSubmission w st c = (st2, none) →
      processAll w st (c :: rest) = processAll w st2 rest) := by
  refine ⟨?_, ?_, ?_, ?_⟩
  · intro w st c e htime hres
    unfold processSubmission
    rw [if_neg htime, hres]
  · intro w st c src src2 b q htime hres hchk hattr
    have hlr : ∀ stx : Store, linkResolve stx c.subm src2.id = .error .apiError := by
      intro stx
      unfold linkResolve Lnk.mk'
      rw [hattr]
      rfl
    unfold processSubmission
    rw [if_neg htime, hres]
    dsimp only
    rw [hchk]
    dsimp only
    rw [hlr]
  · intro w test now st rs s e hpost
    unfold dispatchOne
    dsimp only
    by_cases hs : (Notif.should_notify (Notif.ofSrc s) st).1 = true
    · rw [if_pos hs, hpost]
    · rw [if_neg hs]
  · intro w st st2 c rest h
    conv_lhs => rw [processAll, h]

/-- Concrete instantiation of `c2_recoverable_isolated`: `candBad` carries a
URL that fails source resolution with `NotAComment`; the cycle state is
unchanged and the batch continues. -/
theorem c2_recoverable_isolated_witness :
    ¬(candBad.now - candBad.subm.createdUtc < POST_TIME)
    ∧ sourceResolve wOne emptyCycle.store candBad.subm.url = .error .notAComment
    ∧ processSubmission wOne emptyCycle candBad = (emptyCycle, none)
    ∧ processAll wOne emptyCycle [candBad] = processAll wOne emptyCycle [] := by
  refine ⟨by decide, by decide, ?_, ?_⟩
  · exact c2_recoverable_isolated.1 wOne emptyCycle candBad .notAComment (by decide) (by decide)
  · exact c2_recoverable_isolated.2.2.2 wOne emptyCycle emptyCycle candBad []
      (c2_recoverable_isolated.1 wOne emptyCycle candBad .notAComment (by decide) (by decide))

/-! ### Claim C3 -/

/-- `find?` by id distributes over the UPDATE map, because the update
function preserves row ids. -/
theorem findSource_map_upd (s : Src) : ∀ l : List SourceRow,
    (l.map (fun r => if r.id == s.id then updSourceRow s r else r)).find?
        (fun r => r.id == s.id) =
      (l.find? (fun r => r.id == s.id)).map (fun r => updSourceRow s r) := by
  intro l
  induction l with
  | nil => rfl
  | cons a as ih =>
    by_cases ha : (a.id == s.id) = true
    · rw [List.map_cons, if_pos ha]
      rw [List.find?_cons_of_pos (p := fun r : SourceRow => r.id == s.id) _
        (show ((updSourceRow s a).id == s.id) = true from ha)]
      rw [List.find?_cons_of_pos (p := fun r : SourceRow => r.id == s.id) _ ha]
      rfl
    · rw [List.map_cons, if_neg ha]
      rw [List.find?_cons_of_neg (p := fun r : SourceRow => r.id == s.id) _ ha,
        List.find?_cons_of_neg (p := fun r : SourceRow => r.id == s.id) _ ha]
      exact ih

/-- `find?` skips a prefix on which it fails. -/
theorem find?_append_of_none {α : Type} (p : α → Bool) {l₁ : List α}
    (h : l₁.find? p = none) (l₂ : List α) : (l₁ ++ l₂).find? p = l₂.find? p := by
  induction l₁ with
  | nil => rfl
  | cons a as ih =>
    have hall := List.find?_eq_none.mp h
    rw [List.cons_append, List.find?_cons_of_neg _ (hall a (by simp))]
    exact ih (List.find?_eq_none.mpr (fun x hx => hall x (by simp [hx])))

/-- After `Source.save`, the stored row under the source's id carries exactly
the source's fields; only the creation timestamp depends on whether the save
was an INSERT or an UPDATE. -/
theorem findSource_save (s : Src) (st : Store) (now : Nat) :
    ∃ tv, findSource (Src.save s st now) s.id =
      some ⟨s.id, s.reply, s.subreddit, s.author, s.title, s.skip, tv⟩ := by
  unfold Src.save findSource
  by_cases h : source_exists st s.id
  · rw [if_pos h]
    dsimp only
    rw [findSource_map_upd]
    unfold source_exists at h
    have hsome : (st.sources.find? (fun r => r.id == s.id)).isSome := by
      rw [List.find?_isSome]
      rcases List.any_eq_true.mp h with ⟨r, hr, hpr⟩
      exact ⟨r, hr, hpr⟩
    rcases Option.isSome_iff_exists.mp hsome with ⟨r0, hr0⟩
    have hid : r0.id = s.id := by simpa using List.find?_some hr0
    refine ⟨r0.t, ?_⟩
    rw [hr0]
    simp [updSourceRow, hid]
  · rw [if_neg h]
    dsimp only
    unfold source_exists at h
    have hall := List.any_eq_false.mp (Bool.of_not_eq_true h)
    have hnone : st.sources.find? (fun r => r.id == s.id) = none :=
      List.find?_eq_none.mpr (fun x hx => hall x hx)
    refine ⟨now, ?_⟩
    rw [find?_append_of_none _ hnone]
    rw [List.find?_cons_of_pos (p := fun r : SourceRow => r.id == s.id) _
      (show ((SourceRow.ofSrc s now).id == s.id) = true by simp [SourceRow.ofSrc])]
    rfl

/-- C3: for a Source with no reply identifier, a successful `post_reply`
creates exactly one new reply resource, records its fullname on the
notification and the source, and persists the source (whose stored row then
carries the reply fullname); for a Source whose reply identifier is set,
`post_reply` edits that same reply in place — the identifier is unchanged,
the store untouched, and no reply resource is created or removed. -/
theorem c3_at_most_one_reply :
    (∀ (n : Notif) (st : Store) (rs : RState) (env : RedditEnv) (now : Nat) (sub : Subm),
      n.reply = none → env.fetch n.src.id = some sub →
      Notif.post_reply n false st rs env now =
        .ok ({ n with
               reply := some (genReplyId rs.counter),
               src := { n.src with reply := some (genReplyId rs.counter) } },
             Src.save { n.src with reply := some (genReplyId rs.counter) } st now,
             { rs with
               replyBodies := rs.replyBodies ++ [(genReplyId rs.counter, renderComment n.links)],
               counter := rs.counter + 1 })
      ∧ ∃ tv, findSource (Src.save { n.src with reply := some (genReplyId rs.counter) } st now)
            n.src.id =
          some ⟨n.src.id, some (genReplyId rs.counter), n.src.subreddit, n.src.author,
                n.src.title, n.src.skip, tv⟩)
    ∧ (∀ (n : Notif) (st : Store) (rs : RState) (env : RedditEnv) (now : Nat) (rid : String),
      n.reply = some rid →
      Notif.post_reply n false st rs env now =
        .ok (n, st,
          { rs with replyBodies :=
              rs.replyBodies.map (fun p => if p.1 == rid then (p.1, renderComment n.links) else p) })
      ∧ ∀ rsx : RState,
          (rsx.replyBodies.map
            (fun p => if p.1 == rid then (p.1, renderComment n.links) else p)).length =
          rsx.replyBodies.length) := by
  constructor
  · intro n st rs env now sub hrep hfetch
    constructor
    · unfold Notif.post_reply
      rw [if_neg (by simp), hrep]
      unfold Src.getSubmission
      rw [hfetch]
    · exact findSource_save { n.src with reply := some (genReplyId rs.counter) } st now
  · intro n st rs env now rid hrep
    constructor
    · unfold Notif.post_reply
      rw [if_neg (by simp), hrep]
    · intro rsx
      exact List.length_map _ _

set_option maxRecDepth 40000 in
/-- Concrete instantiation of `c3_at_most_one_reply`: a first `post_reply`
for `t3_abc123` through `envOne` creates the reply `t1_gen0`, and a second
`post_reply` on the resulting notification edits `t1_gen0` in place. -/
theorem c3_at_most_one_reply_witness :
    (Notif.ofSrc ⟨"t3_abc123", "relationship_advice", some "author1", some "Title1",
        none, false, true⟩).reply = none
    ∧ envOne.fetch "t3_abc123" = some ⟨some "Author1", some "Title1", false⟩
    ∧ Notif.post_reply
        (Notif.ofSrc ⟨"t3_abc123", "relationship_advice", some "author1", some "Title1",
          none, false, true⟩) false emptyStore ⟨[], 0⟩ envOne 9 =
      .ok ({ (Notif.ofSrc ⟨"t3_abc123", "relationship_advice", some "author1", some "Title1",
               none, false, true⟩) with
             reply := some (genReplyId 0),
             src := ⟨"t3_abc123", "relationship_advice", some "author1", some "Title1",
                     some (genReplyId 0), false, true⟩ },
           Src.save ⟨"t3_abc123", "relationship_advice", some "author1", some "Title1",
                     some (genReplyId 0), false, true⟩ emptyStore 9,
           ⟨[(genReplyId 0, renderComment [])], 1⟩)
    ∧ (Notif.post_reply
        { (Notif.ofSrc ⟨"t3_abc123", "relationship_advice", some "author1", some "Title1",
            none, false, true⟩) with reply := some "t1_gen0" } false emptyStore
        ⟨[("t1_gen0", "old")], 1⟩ envOne 9 =
      .ok ({ (Notif.ofSrc ⟨"t3_abc123", "relationship_advice", some "author1", some "Title1",
               none, false, true⟩) with reply := some "t1_gen0" }, emptyStore,
           ⟨[("t1_gen0", renderComment [])], 1⟩)) := by
  refine ⟨rfl, by decide, ?_, ?_⟩
  · have h := (c3_at_most_one_reply.1
      (Notif.ofSrc ⟨"t3_abc123", "relationship_advice", some "author1", some "Title1",
        none, false, true⟩) emptyStore ⟨[], 0⟩ envOne 9
      ⟨some "Author1", some "Title1", false⟩ rfl (by decide)).1
    exact h.trans (by decide)
  · have h := (c3_at_most_one_reply.2
      { (Notif.ofSrc ⟨"t3_abc123", "relationship_advice", some "author1", some "Title1",
          none, false, true⟩) with reply := some "t1_gen0" } emptyStore
      ⟨[("t1_gen0", "old")], 1⟩ envOne 9 "t1_gen0" rfl).1
    exact h.trans (by decide)

/-! ### Claim C4 -/

set_option maxRecDepth 100000 in
/-- C4 counterexample: with 41 links (one over the cutoff of 40) each bearing
a 138-character title (over the limit of 137), the body the active
`_render_comment` produces differs from the body the claim mandates
(`renderCommentSpec`, which truncates those titles to 137 characters plus an
ellipsis): the truncation code is commented out in the source, so titles are
rendered in full. -/
theorem c4_counterexample :
    renderComment links41 ≠ renderCommentSpec links41
    ∧ links41.length > LINKS_BEFORE_TITLE_CUTOFF
    ∧ longTitle.length > TITLE_LIMIT
    ∧ renderBullet ("s", longTitle, "/p") =
        "- [/r/s] [" ++ longTitle ++ "](" ++ np "/p" ++ ")" := by
  refine ⟨by decide, by decide, by decide, rfl⟩

/-- C4 (amended): at or below the cutoff the active renderer agrees with the
truncating renderer the claim describes (titles unaltered); above the cutoff
titles are still never truncated — for every link list the body is the fixed
preamble, one bullet per link carrying the link's full title, and the fixed
footer, joined by blank lines. -/
theorem c4_no_truncation :
    (∀ links : List (String × String × String),
      links.length ≤ LINKS_BEFORE_TITLE_CUTOFF →
      renderComment links = renderCommentSpec links)
    ∧ (∀ links : List (String × String × String),
      renderComment links =
        String.intercalate "\n\n" ([preambleText] ++ links.map renderBullet ++ [footerText])) := by
  refine ⟨?_, fun links => rfl⟩
  intro links h
  unfold renderComment renderCommentSpec
  have hc : decide (links.length > LINKS_BEFORE_TITLE_CUTOFF) = false := by
    simp
    omega
  rw [hc]
  simp

/-- Concrete instantiation of `c4_no_truncation` below the cutoff: a single
over-long title is rendered identically by both renderers, untruncated. -/
theorem c4_no_truncation_witness :
    ([("s", longTitle, "/p")] : List (String × String × String)).length ≤
      LINKS_BEFORE_TITLE_CUTOFF
    ∧ renderComment [("s", longTitle, "/p")] = renderCommentSpec [("s", longTitle, "/p")] :=
  ⟨by decide, c4_no_truncation.1 [("s", longTitle, "/p")] (by decide)⟩

end Totes
